import Mathlib

/-
Verification of the nmea_simulator repository (Rust) against its design
specification. The program creates two linked pseudo-terminal pairs,
bridges bytes between their master descriptors, and writes randomly
generated NMEA-0183 sentences to one published path once per second until
an interrupt signal is observed.

The embedding below follows the source files:
  src/main.rs            argument handling and the simulation write loop
  src/nmea_generator.rs  sentence generation, checksums and formatting
  src/pty_handler.rs     forwarding tasks, symlink publication and cleanup

Text is modelled as lists of byte values (all emitted text is ASCII).
Floating-point draws are modelled as rationals; Rust fixed-precision
formatting rounds the exact value half to even, which is reproduced on
rationals. OS interaction (reads, writes, the filesystem) is modelled by
explicit schedules and a finite map, so every behaviour of the embedded
code is a function of those inputs.
-/

namespace NmeaSim

/-! ### Decimal and hexadecimal rendering (Rust integer and float Display) -/

/-- Decimal digits of a natural number, most significant first, as ASCII
byte values; accumulator form mirroring repeated division by ten. -/
def decimalDigitsAux (n : Nat) (acc : List Nat) : List Nat :=
  if h : n = 0 then acc
  else decimalDigitsAux (n / 10) ((48 + n % 10) :: acc)
termination_by n
decreasing_by exact Nat.div_lt_self (Nat.pos_of_ne_zero h) (by norm_num)

/-- Decimal rendering of a natural number as ASCII bytes; zero renders
as the single digit 0, as in Rust integer Display. -/
def decimalDigits (n : Nat) : List Nat :=
  if n = 0 then [48] else decimalDigitsAux n []

/-- Left-pad a rendered number with ASCII zeros to the given width, the
effect of a zero-fill width in a Rust format spec on a nonnegative value. -/
def zeroPad (w : Nat) (s : List Nat) : List Nat :=
  List.replicate (w - s.length) 48 ++ s

/-- Bytes of a string literal (all literals used here are ASCII). -/
def strBytes (s : String) : List Nat := s.toList.map Char.toNat

/-- ASCII byte of one upper-case hexadecimal digit. -/
def hexDigitByte (n : Nat) : Nat := if n < 10 then 48 + n else 55 + n

/-- Upper-case hexadecimal digits of a natural number, accumulator form. -/
def toHexUpperAux (n : Nat) (acc : List Nat) : List Nat :=
  if h : n = 0 then acc
  else toHexUpperAux (n / 16) (hexDigitByte (n % 16) :: acc)
termination_by n
decreasing_by exact Nat.div_lt_self (Nat.pos_of_ne_zero h) (by norm_num)

/-- Upper-case hexadecimal rendering of a natural number. -/
def toHexUpper (n : Nat) : List Nat :=
  if n = 0 then [48] else toHexUpperAux n []

/-- Numeric value of an ASCII upper-case hexadecimal digit. -/
def hexValOf (b : Nat) : Nat := if b < 58 then b - 48 else b - 55

/-- The Rust format spec 02X: upper-case hexadecimal, zero-padded to
width two. -/
def format02X (n : Nat) : List Nat := zeroPad 2 (toHexUpper n)

/-! ### Checksums and sentence completion (nmea_generator.rs) -/

/-- XOR of all bytes of a sentence body, the checksum accumulator of
NmeaGenerator::calculate_checksum. -/
def xorChecksum (body : List Nat) : Nat := List.foldl Nat.xor 0 body

/-- NmeaGenerator::calculate_checksum: XOR all bytes of the body and
render the result with format spec 02X. -/
def calculate_checksum (body : List Nat) : List Nat :=
  format02X (xorChecksum body)

/-- NmeaGenerator::complete_sentence: wrap a body as dollar, body, star,
checksum, carriage return, line feed (bytes 36, 42, 13, 10). -/
def complete_sentence (body : List Nat) : List Nat :=
  36 :: body ++ 42 :: calculate_checksum body ++ [13, 10]

/-! ### Rational models of the float formatting used by the generator -/

/-- Round a rational to the nearest integer, ties to even, the rounding
Rust float formatting applies at a fixed precision. -/
def roundHalfEven (q : ℚ) : ℤ :=
  if q - ⌊q⌋ < 1 / 2 then ⌊q⌋
  else if 1 / 2 < q - ⌊q⌋ then ⌊q⌋ + 1
  else if ⌊q⌋ % 2 = 0 then ⌊q⌋ else ⌊q⌋ + 1

/-- Fixed-point rendering of a nonnegative rational with the given total
zero-fill width and number of decimal places, modelling a Rust format
spec such as 07.4 applied to a nonnegative float. Byte 46 is the dot. -/
def fmtFixedNN (w p : Nat) (q : ℚ) : List Nat :=
  zeroPad w
    (decimalDigits ((roundHalfEven (q * (10 : ℚ) ^ p)).toNat / 10 ^ p)
      ++ 46 :: zeroPad p (decimalDigits ((roundHalfEven (q * (10 : ℚ) ^ p)).toNat % 10 ^ p)))

/-- The Rust format spec .1 on a possibly negative float: sign followed
by the magnitude rendered with one decimal place. Byte 45 is the minus. -/
def fmtDec1 (q : ℚ) : List Nat :=
  if q < 0 then 45 :: fmtFixedNN 0 1 (-q) else fmtFixedNN 0 1 q

/-- The Rust format spec 0w (zero-padded width w) applied to the whole
nonnegative float degrees value, which Display renders without a dot. -/
def fmtPadWhole (w : Nat) (n : Nat) : List Nat := zeroPad w (decimalDigits n)

/-! ### Location generation (NmeaGenerator::generate_location) -/

/-- The four fields produced by generate_location: rendered latitude and
longitude plus the two hemisphere characters. -/
structure LocationData where
  latitude : List Nat
  ns : Char
  longitude : List Nat
  ew : Char

/-- NmeaGenerator::generate_location with the two uniform draws passed
in: split each coordinate into whole degrees and minutes, format degrees
zero-padded (width 2 or 3) and minutes with format spec 07.4, and pick
hemisphere characters by sign. -/
def generate_location (lat lon : ℚ) : LocationData :=
  { latitude :=
      fmtPadWhole 2 (Int.toNat ⌊|lat|⌋)
        ++ fmtFixedNN 7 4 ((|lat| - (⌊|lat|⌋ : ℚ)) * 60)
    ns := if 0 ≤ lat then 'N' else 'S'
    longitude :=
      fmtPadWhole 3 (Int.toNat ⌊|lon|⌋)
        ++ fmtFixedNN 7 4 ((|lon| - (⌊|lon|⌋ : ℚ)) * 60)
    ew := if 0 ≤ lon then 'E' else 'W' }

/-! ### Satellites and the five sentence builders (nmea_generator.rs) -/

/-- The five constellations of the generator. -/
inductive Constellation
  | GPS
  | GLONASS
  | GALILEO
  | BEIDOU
  | QZSS
deriving DecidableEq

/-- Constellation::to_code, the two-letter talker id. -/
def Constellation.to_code : Constellation → String
  | .GPS => "GP"
  | .GLONASS => "GL"
  | .GALILEO => "GA"
  | .BEIDOU => "GB"
  | .QZSS => "GQ"

/-- A satellite as carried by the generator: constellation and id. -/
structure Satellite where
  constellation : Constellation
  id : Nat
deriving DecidableEq

/-- Rust slice indexing satellites, with start and end bounds checked as
the runtime does: out of bounds is a panic, modelled as none. -/
def sliceChk {α : Type} (xs : List α) (s e : Nat) : Option (List α) :=
  if s ≤ e ∧ e ≤ xs.length then some ((xs.drop s).take (e - s)) else none

/-- The satellite fields of one GSV message: id comma zero comma zero
comma, per satellite in the chunk. -/
def gsvSatsStr (chunk : List Satellite) : List Nat :=
  (chunk.map (fun sat => natBytesOfId sat ++ strBytes (",0,0,"))).flatten
where
  natBytesOfId (sat : Satellite) : List Nat := decimalDigits sat.id

/-- Body of the i-th GSV message: GPGSV, total message count, message
number (one-based), chunk size, then the satellite fields. -/
def gsvBody (numMsgs i : Nat) (chunk : List Satellite) : List Nat :=
  strBytes ("GPGSV,") ++ decimalDigits numMsgs ++ strBytes (",")
    ++ decimalDigits (i + 1) ++ strBytes (",")
    ++ decimalDigits chunk.length ++ strBytes (",") ++ gsvSatsStr chunk

/-- The loop of NmeaGenerator::generate_gsv over the listed indices i:
slice satellites from 4i to 4(i+1), or to the end on the last index, and
complete one message per index. A failed slice is the panic. -/
def gsvGoL (sats : List Satellite) (numMsgs : Nat) : List Nat → Option (List (List Nat))
  | [] => some []
  | i :: rest =>
    match sliceChk sats (i * 4) (if i = numMsgs - 1 then sats.length else (i + 1) * 4) with
    | none => none
    | some chunk =>
      match gsvGoL sats numMsgs rest with
      | none => none
      | some restMsgs => some (complete_sentence (gsvBody numMsgs i chunk) :: restMsgs)

/-- NmeaGenerator::generate_gsv with the message-count draw passed in:
run the loop over indices zero to numMsgs minus one and concatenate the
messages; none records the out-of-bounds panic. -/
def generate_gsv (sats : List Satellite) (numMsgs : Nat) : Option (List Nat) :=
  (gsvGoL sats numMsgs (List.range numMsgs)).map List.flatten

/-- Index of a constellation in the grouping vector of generate_gsa. -/
def constellIndexOf : Constellation → Nat
  | .GPS => 0
  | .GLONASS => 1
  | .GALILEO => 2
  | .BEIDOU => 3
  | .QZSS => 4

/-- The grouping step of generate_gsa: satellites bucketed by
constellation in vector order, each bucket keeping input order. -/
def satsByConstell (sats : List Satellite) : List (List Satellite) :=
  (List.range 5).map (fun i => sats.filter (fun s => constellIndexOf s.constellation == i))

/-- The satellite-id field list of one GSA message: ids joined by commas
then padded with commas up to twelve fields. Byte 44 is the comma. -/
def gsaIdsStr (group : List Satellite) : List Nat :=
  List.intercalate [44] (group.map (fun s => decimalDigits s.id))
    ++ List.replicate (12 - group.length) 44

/-- One GSA message for a nonempty constellation group: talker code of
the first member, GSA, mode A, fix type 3, the id fields, then the three
dilution values with one decimal place. Empty groups yield nothing. -/
def gsaMsgFor (group : List Satellite) (pdop hdop vdop : ℚ) : List Nat :=
  match group with
  | [] => []
  | g0 :: _ =>
    complete_sentence
      (strBytes g0.constellation.to_code ++ strBytes ("GSA,A,3,")
        ++ gsaIdsStr group ++ strBytes (",") ++ fmtDec1 pdop ++ strBytes (",")
        ++ fmtDec1 hdop ++ strBytes (",") ++ fmtDec1 vdop)

/-- NmeaGenerator::generate_gsa with its three dilution draws passed in. -/
def generate_gsa (sats : List Satellite) (pdop hdop vdop : ℚ) : List Nat :=
  ((satsByConstell sats).map (fun g => gsaMsgFor g pdop hdop vdop)).flatten

/-- NmeaGenerator::generate_gga with its draws passed in; field order and
the fixed M and empty fields follow the format string of the source. -/
def generate_gga (loc : LocationData) (utcTime : List Nat) (fixQuality : Nat)
    (hdop altitude geoidHeight : ℚ) (numSatellites : Nat) : List Nat :=
  complete_sentence
    (strBytes ("GPGGA,") ++ utcTime ++ strBytes (",")
      ++ loc.latitude ++ strBytes (",") ++ [loc.ns.toNat] ++ strBytes (",")
      ++ loc.longitude ++ strBytes (",") ++ [loc.ew.toNat] ++ strBytes (",")
      ++ decimalDigits fixQuality ++ strBytes (",")
      ++ decimalDigits numSatellites ++ strBytes (",")
      ++ fmtDec1 hdop ++ strBytes (",") ++ fmtDec1 altitude ++ strBytes (",M,")
      ++ fmtDec1 geoidHeight ++ strBytes (",M,,"))

/-- NmeaGenerator::generate_rmc with its draws passed in. The source
builds a latitude variable equal to the location string with the
hemisphere letter appended and then also emits the hemisphere letter as
its own field; the course is rendered by plain float Display, so its
rendering is taken as an input. -/
def generate_rmc (loc : LocationData) (utcTime utcDate : List Nat)
    (speed : ℚ) (courseStr : List Nat) : List Nat :=
  complete_sentence
    (strBytes ("GPRMC,") ++ utcTime ++ strBytes (",A,")
      ++ (loc.latitude ++ [loc.ns.toNat]) ++ strBytes (",") ++ [loc.ns.toNat] ++ strBytes (",")
      ++ (loc.longitude ++ [loc.ew.toNat]) ++ strBytes (",") ++ [loc.ew.toNat] ++ strBytes (",")
      ++ fmtDec1 speed ++ strBytes (",") ++ courseStr ++ strBytes (",")
      ++ utcDate ++ strBytes (",,,"))

/-- NmeaGenerator::generate_gll; like RMC it appends the hemisphere
letter to each coordinate string and also emits it as its own field. -/
def generate_gll (loc : LocationData) (utcTime : List Nat) : List Nat :=
  complete_sentence
    (strBytes ("GPGLL,")
      ++ (loc.latitude ++ [loc.ns.toNat]) ++ strBytes (",") ++ [loc.ns.toNat] ++ strBytes (",")
      ++ (loc.longitude ++ [loc.ew.toNat]) ++ strBytes (",") ++ [loc.ew.toNat] ++ strBytes (",")
      ++ utcTime ++ strBytes (",A"))

/-- All random draws and clock readings consumed by one call to
NmeaGenerator::generate_sentences, passed explicitly. The course field
carries the plain Display rendering of the course float, the only value
the generator prints without a fixed precision. -/
structure Draws where
  lat : ℚ
  lon : ℚ
  utcTime : List Nat
  utcDate : List Nat
  speed : ℚ
  courseStr : List Nat
  fixQuality : Nat
  altitude : ℚ
  hdop : ℚ
  geoidHeight : ℚ
  gsaPdop : ℚ
  gsaHdop : ℚ
  gsaVdop : ℚ
  sats : List Satellite
  gsvNumMsgs : Nat

/-- NmeaGenerator::generate_sentences: one location, one satellite list,
then the concatenation RMC, GGA, GLL, GSA, GSV; none records a panic in
the GSV step. -/
def generate_sentences (d : Draws) : Option (List Nat) :=
  match generate_gsv d.sats d.gsvNumMsgs with
  | none => none
  | some gsv =>
    some (generate_rmc (generate_location d.lat d.lon) d.utcTime d.utcDate d.speed d.courseStr
      ++ generate_gga (generate_location d.lat d.lon) d.utcTime d.fixQuality
          d.hdop d.altitude d.geoidHeight d.sats.length
      ++ generate_gll (generate_location d.lat d.lon) d.utcTime
      ++ generate_gsa d.sats d.gsaPdop d.gsaHdop d.gsaVdop
      ++ gsv)

/-! ### The forwarding tasks (PtyHandler::start_forwarding) -/

/-- Outcome of one read call on the source master descriptor. -/
inductive ReadResult
  | data (bytes : List Nat)
  | empty
  | errInterrupted
  | errOther
deriving DecidableEq

/-- Environment of one loop iteration of a forwarding task: the value
the shutdown flag shows at the loop head, and the read outcome were a
read issued. -/
structure IterInput where
  flag : Bool
  res : ReadResult
deriving DecidableEq

/-- Observable actions of a forwarding task: a write of bytes to a
descriptor, or closing a descriptor. -/
inductive Event
  | write (fd : Nat) (bytes : List Nat)
  | close (fd : Nat)
deriving DecidableEq

/-- The loop of one forwarding task in PtyHandler::start_forwarding, run
against a schedule of iteration environments. Returns the emitted events
and whether the task terminated; a schedule that runs out leaves the
task still blocked in its loop. On a positive read the bytes are written
to the destination master; a zero read and an interrupted error continue
the loop; any other error breaks; the source descriptor is closed after
the loop. -/
def forwardRun (src dest : Nat) : List IterInput → List Event × Bool
  | [] => ([], false)
  | it :: rest =>
    if it.flag then ([Event.close src], true)
    else
      match it.res with
      | ReadResult.data bs =>
        ((Event.write dest bs) :: (forwardRun src dest rest).1, (forwardRun src dest rest).2)
      | ReadResult.empty => forwardRun src dest rest
      | ReadResult.errInterrupted => forwardRun src dest rest
      | ReadResult.errOther => ([Event.close src], true)

/-- Descriptors closed in an event list. -/
def closesOf (evs : List Event) : List Nat :=
  evs.filterMap (fun e =>
    match e with
    | Event.close fd => some fd
    | _ => none)

/-- The write payloads an event list delivers to one descriptor, in
order. -/
def writesTo (dest : Nat) (evs : List Event) : List (List Nat) :=
  evs.filterMap (fun e =>
    match e with
    | Event.write fd bs => if fd = dest then some bs else none
    | _ => none)

/-- All bytes an event list delivers to one descriptor, in order. -/
def writtenTo (dest : Nat) (evs : List Event) : List Nat :=
  (writesTo dest evs).flatten

/-! ### PtyHandler state, cleanup, and the close ownership trace -/

/-- The components that can close a descriptor in this program. -/
inductive Component
  | task1
  | task2
  | cleanupTask
deriving DecidableEq

/-- The owning state of PtyHandler relevant to cleanup: whether each
forwarding thread handle is still held, and the two retained replica
descriptors. The master descriptors are captured by the forwarding
threads at spawn time. -/
structure PtyState where
  thread1 : Bool
  thread2 : Bool
  slave1 : Option Nat
  slave2 : Option Nat
deriving DecidableEq

/-- A filesystem entry: a terminal device node, or a symbolic link to a
target path. -/
inductive FsEntry
  | device
  | link (target : String)
deriving DecidableEq

/-- The filesystem as a finite association of paths to entries. -/
abbrev Fs := List (String × FsEntry)

/-- Entry stored at a path, not following links. -/
def lookupFs (fs : Fs) (p : String) : Option FsEntry :=
  (fs.find? (fun e => e.1 == p)).map Prod.snd

/-- The Rust Path::exists check: it follows a symbolic link, so a link
whose target is absent reports false. -/
def pathExistsB (fs : Fs) (p : String) : Bool :=
  match lookupFs fs p with
  | some FsEntry.device => true
  | some (FsEntry.link t) => (lookupFs fs t).isSome
  | none => false

/-- fs::remove_file: drop the entry stored at the path itself (removing
a link removes the link, not its target). -/
def removePath (fs : Fs) (p : String) : Fs :=
  fs.filter (fun e => !(e.1 == p))

/-- One guarded removal of PtyHandler::cleanup: remove the path only
when Path::exists reports it present. -/
def cleanupFsStep (fs : Fs) (p : String) : Fs :=
  if pathExistsB fs p then removePath fs p else fs

/-- PtyHandler::cleanup: join and drop both thread handles, remove each
published path guarded by Path::exists, close and drop both retained
replica descriptors. In this sequential model every fallible step it
reaches succeeds, so the returned flag (the Ok result) is true. -/
def cleanupRun (_st : PtyState) (fs : Fs) (inPath outPath : String) :
    PtyState × Fs × Bool :=
  ({ thread1 := false, thread2 := false, slave1 := none, slave2 := none },
    cleanupFsStep (cleanupFsStep fs inPath) outPath, true)

/-- Close events of cleanup, tagged: it closes exactly the retained
replica descriptors it still holds. -/
def cleanupCloses (st : PtyState) : List (Nat × Component) :=
  (match st.slave1 with
    | some fd => [(fd, Component.cleanupTask)]
    | none => [])
  ++ (match st.slave2 with
    | some fd => [(fd, Component.cleanupTask)]
    | none => [])

/-- Every close event of one shutdown of the program, tagged with the
component that performed it: the two forwarding tasks run their
schedules, then cleanup runs on the held state. -/
def systemCloses (m1 m2 : Nat) (st : PtyState) (ins1 ins2 : List IterInput) :
    List (Nat × Component) :=
  (closesOf (forwardRun m1 m2 ins1).1).map (fun fd => (fd, Component.task1))
    ++ (closesOf (forwardRun m2 m1 ins2).1).map (fun fd => (fd, Component.task2))
    ++ cleanupCloses st

/-! ### The simulation loop (main.rs, write_nmea_messages) -/

/-- Number of write-and-flush iterations the loop of write_nmea_messages
completes, given the sequence of values its loop-head check of the
shutdown flag observes: each false observation admits exactly one more
full iteration, the first true observation ends the loop. -/
def simLoopWrites : List Bool → Nat
  | [] => 0
  | b :: rest => if b then 0 else simLoopWrites rest + 1

/-- Whether the loop has exited within the observed schedule, that is,
whether some loop-head check observed the flag as true. -/
def simLoopExits : List Bool → Bool
  | [] => false
  | b :: rest => b || simLoopExits rest

/-! ### Argument handling (main.rs) -/

/-- What main does with its argument vector before any transport work. -/
inductive ArgOutcome
  | usageExit (code : Nat)
  | proceed (gpsInputPath gpsOutputPath : String)
deriving DecidableEq

/-- The argument check of main: anything other than exactly three
arguments (program name plus two paths) prints usage to standard error
and exits with status one; otherwise the two paths are taken
positionally. -/
def mainArgs (args : List String) : ArgOutcome :=
  match args with
  | [_, a, b] => ArgOutcome.proceed a b
  | _ => ArgOutcome.usageExit 1

/-! ### Concrete instances used by counterexamples and failing inputs -/

/-- Published input path used in concrete scenarios. -/
def gpsInP : String := "/tmp/gps_input"

/-- Published output path used in concrete scenarios. -/
def gpsOutP : String := "/tmp/gps_output"

/-- A PtyHandler state at cleanup time after both forwarding threads
were joined-and-taken by an earlier call path: nothing held. -/
def stBare : PtyState :=
  { thread1 := false, thread2 := false, slave1 := none, slave2 := none }

/-- Filesystem at cleanup time after the forwarding threads closed the
two pty masters: both published paths are symbolic links whose pts
targets are gone. -/
def fsDangling : Fs :=
  [(gpsInP, FsEntry.link ("/dev/pts/3")), (gpsOutP, FsEntry.link ("/dev/pts/4"))]

/-- A PtyHandler state as cleanup first sees it: both thread handles
still held, both replica descriptors retained. -/
def stHeld : PtyState :=
  { thread1 := true, thread2 := true, slave1 := some 5, slave2 := some 6 }

/-- A four-satellite list (the smallest count generate_satellites can
draw), used as a concrete failing input for the GSV generator. -/
def satsFour : List Satellite :=
  [{ constellation := Constellation.GPS, id := 7 },
   { constellation := Constellation.GLONASS, id := 70 },
   { constellation := Constellation.GALILEO, id := 12 },
   { constellation := Constellation.BEIDOU, id := 110 }]

/-- A complete draw record with the smallest satellite count and the
smallest GSV message-count draw. -/
def drawsMin : Draws :=
  { lat := 35
    lon := 129
    utcTime := strBytes ("120000")
    utcDate := strBytes ("011224")
    speed := 10
    courseStr := strBytes ("90")
    fixQuality := 1
    altitude := 100
    hdop := 1
    geoidHeight := 20
    gsaPdop := 2
    gsaHdop := 2
    gsaVdop := 2
    sats := satsFour
    gsvNumMsgs := 4 }

end NmeaSim

namespace NmeaSim

/-! ## Helper lemmas on the rendering functions -/

lemma decimalDigitsAux_len : ∀ (k n : Nat) (acc : List Nat), n < 10 ^ k →
    (decimalDigitsAux n acc).length ≤ k + acc.length := by
  intro k
  induction k with
  | zero =>
    intro n acc h
    have hn : n = 0 := by simpa using h
    subst hn
    unfold decimalDigitsAux
    simp
  | succ k ih =>
    intro n acc h
    unfold decimalDigitsAux
    by_cases hn : n = 0
    · rw [dif_pos hn]
      omega
    · rw [dif_neg hn]
      have hlt : n / 10 < 10 ^ k := by
        have h10 : n < 10 ^ k * 10 := by
          rw [pow_succ] at h
          omega
        exact (Nat.div_lt_iff_lt_mul (by norm_num)).mpr h10
      have := ih (n / 10) ((48 + n % 10) :: acc) hlt
      simp only [List.length_cons] at this
      omega

lemma decimalDigits_len (k n : Nat) (hk : 1 ≤ k) (h : n < 10 ^ k) :
    (decimalDigits n).length ≤ k := by
  unfold decimalDigits
  by_cases hn : n = 0
  · rw [if_pos hn]
    simpa using hk
  · rw [if_neg hn]
    have := decimalDigitsAux_len k n [] h
    simpa using this

lemma decimalDigitsAux_digits : ∀ (n : Nat) (acc : List Nat),
    (∀ b ∈ acc, 48 ≤ b ∧ b ≤ 57) → ∀ b ∈ decimalDigitsAux n acc, 48 ≤ b ∧ b ≤ 57 := by
  intro n
  induction n using Nat.strong_induction_on with
  | _ n ih =>
    intro acc hacc
    unfold decimalDigitsAux
    by_cases hn : n = 0
    · rw [dif_pos hn]
      exact hacc
    · rw [dif_neg hn]
      refine ih (n / 10) (Nat.div_lt_self (Nat.pos_of_ne_zero hn) (by norm_num)) _ ?_
      intro b hb
      rcases List.mem_cons.mp hb with h | h
      · subst h
        have := Nat.mod_lt n (y := 10) (by norm_num)
        omega
      · exact hacc b h

lemma decimalDigits_digits (n : Nat) : ∀ b ∈ decimalDigits n, 48 ≤ b ∧ b ≤ 57 := by
  unfold decimalDigits
  by_cases hn : n = 0
  · rw [if_pos hn]
    intro b hb
    simp at hb
    omega
  · rw [if_neg hn]
    exact decimalDigitsAux_digits n [] (by simp)

lemma zeroPad_length (w : Nat) (s : List Nat) (h : s.length ≤ w) :
    (zeroPad w s).length = w := by
  simp [zeroPad]
  omega

lemma zeroPad_digits (w : Nat) (s : List Nat) (hs : ∀ b ∈ s, 48 ≤ b ∧ b ≤ 57) :
    ∀ b ∈ zeroPad w s, 48 ≤ b ∧ b ≤ 57 := by
  intro b hb
  rcases List.mem_append.mp hb with h | h
  · have := List.eq_of_mem_replicate h
    omega
  · exact hs b h

lemma foldl_xor_lt : ∀ (l : List Nat) (a : Nat), a < 256 → (∀ b ∈ l, b < 256) →
    List.foldl Nat.xor a l < 256 := by
  intro l
  induction l with
  | nil =>
    intro a ha _
    simpa using ha
  | cons x xs ih =>
    intro a ha hl
    have hx : x < 256 := hl x (by simp)
    have h256 : (256 : Nat) = 2 ^ 8 := by norm_num
    refine ih (Nat.xor a x) ?_ ?_
    · rw [h256] at ha hx ⊢
      exact Nat.xor_lt_two_pow ha hx
    · intro b hb
      exact hl b (by simp [hb])

lemma xorChecksum_lt (body : List Nat) (hb : ∀ b ∈ body, b < 256) :
    xorChecksum body < 256 :=
  foldl_xor_lt body 0 (by norm_num) hb

lemma format02X_eq (n : Nat) (h : n < 256) :
    format02X n = [hexDigitByte (n / 16), hexDigitByte (n % 16)] := by
  by_cases h0 : n = 0
  · subst h0
    decide
  · by_cases h16 : n < 16
    · have hd : n / 16 = 0 := Nat.div_eq_of_lt h16
      have hm : n % 16 = n := Nat.mod_eq_of_lt h16
      unfold format02X toHexUpper
      rw [if_neg h0]
      unfold toHexUpperAux
      rw [dif_neg h0, hd]
      unfold toHexUpperAux
      rw [dif_pos rfl, hm]
      simp [zeroPad, hd, hexDigitByte]
    · have hne : n / 16 ≠ 0 :=
        Nat.pos_iff_ne_zero.mp (Nat.div_pos (not_lt.mp h16) (by norm_num))
      have hdd : n / 16 / 16 = 0 := by
        rw [Nat.div_div_eq_div_mul]
        exact Nat.div_eq_of_lt (by omega)
      have hdm : n / 16 % 16 = n / 16 := by
        apply Nat.mod_eq_of_lt
        omega
      unfold format02X toHexUpper
      rw [if_neg h0]
      unfold toHexUpperAux
      rw [dif_neg h0]
      unfold toHexUpperAux
      rw [dif_neg hne, hdd]
      unfold toHexUpperAux
      rw [dif_pos rfl, hdm]
      simp [zeroPad]

lemma hexDigitByte_range (k : Nat) (h : k < 16) :
    (48 ≤ hexDigitByte k ∧ hexDigitByte k ≤ 57) ∨ (65 ≤ hexDigitByte k ∧ hexDigitByte k ≤ 70) := by
  unfold hexDigitByte
  by_cases hk : k < 10
  · rw [if_pos hk]
    omega
  · rw [if_neg hk]
    omega

lemma hexValOf_hexDigitByte (k : Nat) (h : k < 16) : hexValOf (hexDigitByte k) = k := by
  unfold hexValOf hexDigitByte
  by_cases hk : k < 10
  · rw [if_pos hk, if_pos (by omega)]
    omega
  · rw [if_neg hk, if_neg (by omega)]
    omega

/-- C4: for each sentence body, complete_sentence yields exactly the
dollar sign, the body, the star, the checksum, then carriage return and
line feed, where the checksum is the XOR of all body bytes rendered as
exactly two upper-case hexadecimal digits whose value decodes back to
that XOR. -/
theorem claim4_complete_sentence_format (body : List Nat) (hb : ∀ b ∈ body, b < 256) :
    complete_sentence body
      = [36] ++ body ++ [42]
        ++ [hexDigitByte (xorChecksum body / 16), hexDigitByte (xorChecksum body % 16)]
        ++ [13, 10]
    ∧ (calculate_checksum body).length = 2
    ∧ (∀ d ∈ calculate_checksum body, (48 ≤ d ∧ d ≤ 57) ∨ (65 ≤ d ∧ d ≤ 70))
    ∧ hexValOf (hexDigitByte (xorChecksum body / 16)) * 16
        + hexValOf (hexDigitByte (xorChecksum body % 16)) = xorChecksum body := by
  have hcs : xorChecksum body < 256 := xorChecksum_lt body hb
  have hck : calculate_checksum body
      = [hexDigitByte (xorChecksum body / 16), hexDigitByte (xorChecksum body % 16)] := by
    unfold calculate_checksum
    exact format02X_eq _ hcs
  refine ⟨?_, ?_, ?_, ?_⟩
  · unfold complete_sentence
    rw [hck]
    simp
  · rw [hck]
    rfl
  · rw [hck]
    intro d hd
    rcases List.mem_cons.mp hd with h | h
    · subst h
      exact hexDigitByte_range _ (by omega)
    · simp at h
      subst h
      exact hexDigitByte_range _ (Nat.mod_lt _ (by norm_num))
  · rw [hexValOf_hexDigitByte _ (by omega), hexValOf_hexDigitByte _ (Nat.mod_lt _ (by norm_num))]
    omega

/-- Witness for C4 at the concrete body GPGLL (bytes of the letters). -/
theorem claim4_complete_sentence_format_witness :
    (∀ b ∈ [71, 80, 71, 76, 76], b < 256)
    ∧ (complete_sentence [71, 80, 71, 76, 76]
        = [36] ++ [71, 80, 71, 76, 76] ++ [42]
          ++ [hexDigitByte (xorChecksum [71, 80, 71, 76, 76] / 16),
              hexDigitByte (xorChecksum [71, 80, 71, 76, 76] % 16)]
          ++ [13, 10]
      ∧ (calculate_checksum [71, 80, 71, 76, 76]).length = 2
      ∧ (∀ d ∈ calculate_checksum [71, 80, 71, 76, 76], (48 ≤ d ∧ d ≤ 57) ∨ (65 ≤ d ∧ d ≤ 70))
      ∧ hexValOf (hexDigitByte (xorChecksum [71, 80, 71, 76, 76] / 16)) * 16
          + hexValOf (hexDigitByte (xorChecksum [71, 80, 71, 76, 76] % 16))
          = xorChecksum [71, 80, 71, 76, 76]) :=
  ⟨by decide, claim4_complete_sentence_format [71, 80, 71, 76, 76] (by decide)⟩

end NmeaSim

namespace NmeaSim

/-! ## Formatting structure of generate_location (claim C9) -/

lemma zeroPad_split (w : Nat) (a b : List Nat) :
    zeroPad w (a ++ b) = (List.replicate (w - (a ++ b).length) 48 ++ a) ++ b := by
  simp [zeroPad, List.append_assoc]

lemma fmtFixedNN_structure (w p : Nat) (q : ℚ) :
    ∃ intPart fracPart : List Nat,
      fmtFixedNN w p q = intPart ++ 46 :: fracPart
      ∧ fracPart = zeroPad p (decimalDigits ((roundHalfEven (q * (10 : ℚ) ^ p)).toNat % 10 ^ p))
      ∧ ∀ b ∈ intPart, 48 ≤ b ∧ b ≤ 57 := by
  unfold fmtFixedNN
  rw [zeroPad_split]
  refine ⟨_, _, rfl, rfl, ?_⟩
  intro b hb
  rcases List.mem_append.mp hb with h | h
  · have := List.eq_of_mem_replicate h
    omega
  · exact decimalDigits_digits _ b h

lemma fmtPadWhole_spec (w n : Nat) (hw : 1 ≤ w) (hn : n < 10 ^ w) :
    (fmtPadWhole w n).length = w ∧ ∀ b ∈ fmtPadWhole w n, 48 ≤ b ∧ b ≤ 57 := by
  constructor
  · exact zeroPad_length w _ (decimalDigits_len w n hw hn)
  · exact zeroPad_digits w _ (decimalDigits_digits n)

lemma fracPart_spec (p x : Nat) (hp : 1 ≤ p) :
    (zeroPad p (decimalDigits (x % 10 ^ p))).length = p
    ∧ ∀ b ∈ zeroPad p (decimalDigits (x % 10 ^ p)), 48 ≤ b ∧ b ≤ 57 := by
  have hx : x % 10 ^ p < 10 ^ p := Nat.mod_lt _ (by positivity)
  constructor
  · exact zeroPad_length p _ (decimalDigits_len p _ hp hx)
  · exact zeroPad_digits p _ (decimalDigits_digits _)

/-- C9: every location produced by generate_location renders latitude as
the degree part zero-padded to two digits followed by minutes carrying
exactly four decimal digits, longitude likewise with a three-digit
degree part, and picks hemisphere characters consistent with the signs
of the sampled coordinates. -/
theorem claim9_generate_location_format (lat lon : ℚ)
    (h1 : -90 ≤ lat) (h2 : lat < 90) (h3 : -180 ≤ lon) (h4 : lon < 180) :
    (∃ intLat fracLat : List Nat,
      (generate_location lat lon).latitude
          = fmtPadWhole 2 (Int.toNat ⌊|lat|⌋) ++ intLat ++ 46 :: fracLat
        ∧ (fmtPadWhole 2 (Int.toNat ⌊|lat|⌋)).length = 2
        ∧ (∀ b ∈ fmtPadWhole 2 (Int.toNat ⌊|lat|⌋), 48 ≤ b ∧ b ≤ 57)
        ∧ (∀ b ∈ intLat, 48 ≤ b ∧ b ≤ 57)
        ∧ fracLat.length = 4 ∧ (∀ b ∈ fracLat, 48 ≤ b ∧ b ≤ 57))
    ∧ (∃ intLon fracLon : List Nat,
      (generate_location lat lon).longitude
          = fmtPadWhole 3 (Int.toNat ⌊|lon|⌋) ++ intLon ++ 46 :: fracLon
        ∧ (fmtPadWhole 3 (Int.toNat ⌊|lon|⌋)).length = 3
        ∧ (∀ b ∈ fmtPadWhole 3 (Int.toNat ⌊|lon|⌋), 48 ≤ b ∧ b ≤ 57)
        ∧ (∀ b ∈ intLon, 48 ≤ b ∧ b ≤ 57)
        ∧ fracLon.length = 4 ∧ (∀ b ∈ fracLon, 48 ≤ b ∧ b ≤ 57))
    ∧ (0 ≤ lat → (generate_location lat lon).ns = 'N')
    ∧ (lat < 0 → (generate_location lat lon).ns = 'S')
    ∧ (0 ≤ lon → (generate_location lat lon).ew = 'E')
    ∧ (lon < 0 → (generate_location lat lon).ew = 'W') := by
  have hlatAbs : |lat| ≤ 90 := abs_le.mpr ⟨by linarith, by linarith⟩
  have hlonAbs : |lon| ≤ 180 := abs_le.mpr ⟨by linarith, by linarith⟩
  have hlatDeg : Int.toNat ⌊|lat|⌋ < 10 ^ 2 := by
    have h90 : ⌊|lat|⌋ ≤ 90 := by
      have := Int.floor_mono hlatAbs
      simpa using this
    omega
  have hlonDeg : Int.toNat ⌊|lon|⌋ < 10 ^ 3 := by
    have h180 : ⌊|lon|⌋ ≤ 180 := by
      have := Int.floor_mono hlonAbs
      simpa using this
    omega
  refine ⟨?_, ?_, ?_, ?_, ?_, ?_⟩
  · obtain ⟨ip, fp, heq, hfp, hipd⟩ :=
      fmtFixedNN_structure 7 4 ((|lat| - (⌊|lat|⌋ : ℚ)) * 60)
    have hfrac := fracPart_spec 4 ((roundHalfEven ((|lat| - (⌊|lat|⌋ : ℚ)) * 60 * (10 : ℚ) ^ 4)).toNat)
      (by norm_num)
    refine ⟨ip, fp, ?_, (fmtPadWhole_spec 2 _ (by norm_num) hlatDeg).1,
      (fmtPadWhole_spec 2 _ (by norm_num) hlatDeg).2, hipd, ?_, ?_⟩
    · show fmtPadWhole 2 (Int.toNat ⌊|lat|⌋)
          ++ fmtFixedNN 7 4 ((|lat| - (⌊|lat|⌋ : ℚ)) * 60)
          = fmtPadWhole 2 (Int.toNat ⌊|lat|⌋) ++ ip ++ 46 :: fp
      rw [heq, List.append_assoc]
    · rw [hfp]
      exact hfrac.1
    · rw [hfp]
      exact hfrac.2
  · obtain ⟨ip, fp, heq, hfp, hipd⟩ :=
      fmtFixedNN_structure 7 4 ((|lon| - (⌊|lon|⌋ : ℚ)) * 60)
    have hfrac := fracPart_spec 4 ((roundHalfEven ((|lon| - (⌊|lon|⌋ : ℚ)) * 60 * (10 : ℚ) ^ 4)).toNat)
      (by norm_num)
    refine ⟨ip, fp, ?_, (fmtPadWhole_spec 3 _ (by norm_num) hlonDeg).1,
      (fmtPadWhole_spec 3 _ (by norm_num) hlonDeg).2, hipd, ?_, ?_⟩
    · show fmtPadWhole 3 (Int.toNat ⌊|lon|⌋)
          ++ fmtFixedNN 7 4 ((|lon| - (⌊|lon|⌋ : ℚ)) * 60)
          = fmtPadWhole 3 (Int.toNat ⌊|lon|⌋) ++ ip ++ 46 :: fp
      rw [heq, List.append_assoc]
    · rw [hfp]
      exact hfrac.1
    · rw [hfp]
      exact hfrac.2
  · intro h
    simp [generate_location, if_pos h]
  · intro h
    simp [generate_location, if_neg (not_le.mpr h)]
  · intro h
    simp [generate_location, if_pos h]
  · intro h
    simp [generate_location, if_neg (not_le.mpr h)]

/-- Witness for C9 at latitude 37.5 and longitude minus 129.5. -/
theorem claim9_generate_location_format_witness :
    (-90 ≤ (75 / 2 : ℚ)) ∧ ((75 / 2 : ℚ) < 90)
    ∧ (-180 ≤ (-259 / 2 : ℚ)) ∧ ((-259 / 2 : ℚ) < 180)
    ∧ ((∃ intLat fracLat : List Nat,
      (generate_location (75 / 2 : ℚ) (-259 / 2 : ℚ)).latitude
          = fmtPadWhole 2 (Int.toNat ⌊|(75 / 2 : ℚ)|⌋) ++ intLat ++ 46 :: fracLat
        ∧ (fmtPadWhole 2 (Int.toNat ⌊|(75 / 2 : ℚ)|⌋)).length = 2
        ∧ (∀ b ∈ fmtPadWhole 2 (Int.toNat ⌊|(75 / 2 : ℚ)|⌋), 48 ≤ b ∧ b ≤ 57)
        ∧ (∀ b ∈ intLat, 48 ≤ b ∧ b ≤ 57)
        ∧ fracLat.length = 4 ∧ (∀ b ∈ fracLat, 48 ≤ b ∧ b ≤ 57))
    ∧ (∃ intLon fracLon : List Nat,
      (generate_location (75 / 2 : ℚ) (-259 / 2 : ℚ)).longitude
          = fmtPadWhole 3 (Int.toNat ⌊|(-259 / 2 : ℚ)|⌋) ++ intLon ++ 46 :: fracLon
        ∧ (fmtPadWhole 3 (Int.toNat ⌊|(-259 / 2 : ℚ)|⌋)).length = 3
        ∧ (∀ b ∈ fmtPadWhole 3 (Int.toNat ⌊|(-259 / 2 : ℚ)|⌋), 48 ≤ b ∧ b ≤ 57)
        ∧ (∀ b ∈ intLon, 48 ≤ b ∧ b ≤ 57)
        ∧ fracLon.length = 4 ∧ (∀ b ∈ fracLon, 48 ≤ b ∧ b ≤ 57))
    ∧ (0 ≤ (75 / 2 : ℚ) → (generate_location (75 / 2 : ℚ) (-259 / 2 : ℚ)).ns = 'N')
    ∧ ((75 / 2 : ℚ) < 0 → (generate_location (75 / 2 : ℚ) (-259 / 2 : ℚ)).ns = 'S')
    ∧ (0 ≤ (-259 / 2 : ℚ) → (generate_location (75 / 2 : ℚ) (-259 / 2 : ℚ)).ew = 'E')
    ∧ ((-259 / 2 : ℚ) < 0 → (generate_location (75 / 2 : ℚ) (-259 / 2 : ℚ)).ew = 'W')) :=
  ⟨by norm_num, by norm_num, by norm_num, by norm_num,
    claim9_generate_location_format (75 / 2) (-259 / 2)
      (by norm_num) (by norm_num) (by norm_num) (by norm_num)⟩

end NmeaSim

namespace NmeaSim

/-! ## The GSV slicing panic (claims C5 and C6) -/

lemma gsvGoL_none (sats : List Satellite) (numMsgs : Nat) (l : List Nat) (i : Nat)
    (hi : i ∈ l)
    (hfail : sliceChk sats (i * 4)
      (if i = numMsgs - 1 then sats.length else (i + 1) * 4) = none) :
    gsvGoL sats numMsgs l = none := by
  induction l with
  | nil => cases hi
  | cons j rest ih =>
    rcases List.mem_cons.mp hi with h | h
    · subst h
      unfold gsvGoL
      rw [hfail]
    · unfold gsvGoL
      cases hslice : sliceChk sats (j * 4)
          (if j = numMsgs - 1 then sats.length else (j + 1) * 4) with
      | none => rfl
      | some chunk =>
        rw [ih h]

lemma generate_gsv_none (sats : List Satellite) (numMsgs : Nat)
    (h1 : 4 ≤ sats.length) (h2 : sats.length ≤ 11)
    (h3 : sats.length ≤ numMsgs) (h4 : numMsgs ≤ 15) :
    generate_gsv sats numMsgs = none := by
  have h4n : 4 ≤ numMsgs := le_trans h1 h3
  unfold generate_gsv
  by_cases hlen : sats.length < 8
  · have hfail : sliceChk sats (1 * 4)
        (if 1 = numMsgs - 1 then sats.length else (1 + 1) * 4) = none := by
      rw [if_neg (by omega : ¬ (1 = numMsgs - 1))]
      unfold sliceChk
      rw [if_neg (by omega)]
    rw [gsvGoL_none sats numMsgs (List.range numMsgs) 1 (List.mem_range.mpr (by omega)) hfail]
    rfl
  · have h8 : 8 ≤ sats.length := not_lt.mp hlen
    have hfail : sliceChk sats (2 * 4)
        (if 2 = numMsgs - 1 then sats.length else (2 + 1) * 4) = none := by
      rw [if_neg (by omega : ¬ (2 = numMsgs - 1))]
      unfold sliceChk
      rw [if_neg (by omega)]
    rw [gsvGoL_none sats numMsgs (List.range numMsgs) 2 (List.mem_range.mpr (by omega)) hfail]
    rfl

/-- C6: refutation by evaluation of the embedded code. For every
satellite list generate_satellites can produce (length four to eleven)
and every message-count draw of generate_gsv (from the list length up to
fifteen), the slicing loop reaches an out-of-bounds slice, so
generate_gsv panics (returns none in the embedding) on all such inputs
rather than staying within bounds. -/
theorem claim6_gsv_slice_out_of_bounds (sats : List Satellite) (numMsgs : Nat)
    (h1 : 4 ≤ sats.length) (h2 : sats.length ≤ 11)
    (h3 : sats.length ≤ numMsgs) (h4 : numMsgs ≤ 15) :
    generate_gsv sats numMsgs = none :=
  generate_gsv_none sats numMsgs h1 h2 h3 h4

/-- Witness for C6 at the four-satellite list with the smallest draw. -/
theorem claim6_gsv_slice_out_of_bounds_witness :
    4 ≤ satsFour.length ∧ satsFour.length ≤ 11 ∧ satsFour.length ≤ 4 ∧ (4 : Nat) ≤ 15
    ∧ generate_gsv satsFour 4 = none :=
  ⟨by decide, by decide, by decide, by decide,
    claim6_gsv_slice_out_of_bounds satsFour 4 (by decide) (by decide) (by decide) (by decide)⟩

/-- C5: refutation by evaluation of the embedded code. Because the GSV
step always panics on the satellite counts generate_satellites draws,
generate_sentences never returns a batch at all, for every draw of the
random source; in particular no returned batch exhibits the required
five sentence types. -/
theorem claim5_generate_sentences_never_returns (d : Draws)
    (h1 : 4 ≤ d.sats.length) (h2 : d.sats.length ≤ 11)
    (h3 : d.sats.length ≤ d.gsvNumMsgs) (h4 : d.gsvNumMsgs ≤ 15) :
    generate_sentences d = none := by
  unfold generate_sentences
  rw [generate_gsv_none d.sats d.gsvNumMsgs h1 h2 h3 h4]

/-- Witness for C5 at the concrete minimal draw record. -/
theorem claim5_generate_sentences_never_returns_witness :
    4 ≤ drawsMin.sats.length ∧ drawsMin.sats.length ≤ 11
    ∧ drawsMin.sats.length ≤ drawsMin.gsvNumMsgs ∧ drawsMin.gsvNumMsgs ≤ 15
    ∧ generate_sentences drawsMin = none :=
  ⟨by decide, by decide, by decide, by decide,
    claim5_generate_sentences_never_returns drawsMin
      (by decide) (by decide) (by decide) (by decide)⟩

/-! ## Forwarding-task behaviour (claims C1 and C10) -/

lemma closesOf_write_cons (fd : Nat) (bs : List Nat) (evs : List Event) :
    closesOf ((Event.write fd bs) :: evs) = closesOf evs := by
  simp [closesOf]

lemma closesOf_forwardRun (src dest : Nat) (ins : List IterInput) :
    closesOf (forwardRun src dest ins).1
      = if (forwardRun src dest ins).2 then [src] else [] := by
  induction ins with
  | nil => simp [forwardRun, closesOf]
  | cons it rest ih =>
    obtain ⟨flag, res⟩ := it
    cases flag
    · cases res with
      | data bs =>
        simp only [forwardRun, Bool.false_eq_true, if_false]
        rw [closesOf_write_cons]
        exact ih
      | empty => simpa [forwardRun] using ih
      | errInterrupted => simpa [forwardRun] using ih
      | errOther => simp [forwardRun, closesOf]
    · simp [forwardRun, closesOf]

lemma writtenTo_write_cons (dest : Nat) (bs : List Nat) (evs : List Event) :
    writtenTo dest ((Event.write dest bs) :: evs) = bs ++ writtenTo dest evs := by
  simp [writtenTo, writesTo]

/-- C1: each loop iteration of a forwarding task checks the shutdown
flag before reading and terminates (closing its source) if set; a
positive read of at most the buffer size writes exactly those bytes to
the other master and continues; a zero read continues; an interrupted
read error retries; any other read error terminates; and a terminated
run closes exactly its own source descriptor, once, while an
unterminated run has closed nothing. -/
theorem claim1_forwarding_iteration (src dest : Nat) :
    (∀ it rest, it.flag = true →
        forwardRun src dest (it :: rest) = ([Event.close src], true))
    ∧ (∀ (bs : List Nat) rest, bs.length ≤ 1024 →
        forwardRun src dest (IterInput.mk false (ReadResult.data bs) :: rest)
          = ((Event.write dest bs) :: (forwardRun src dest rest).1,
              (forwardRun src dest rest).2))
    ∧ (∀ rest, forwardRun src dest (IterInput.mk false ReadResult.empty :: rest)
          = forwardRun src dest rest)
    ∧ (∀ rest, forwardRun src dest (IterInput.mk false ReadResult.errInterrupted :: rest)
          = forwardRun src dest rest)
    ∧ (∀ rest, forwardRun src dest (IterInput.mk false ReadResult.errOther :: rest)
          = ([Event.close src], true))
    ∧ (∀ ins, ((forwardRun src dest ins).2 = true →
            closesOf (forwardRun src dest ins).1 = [src])
        ∧ ((forwardRun src dest ins).2 = false →
            closesOf (forwardRun src dest ins).1 = [])) := by
  refine ⟨?_, ?_, ?_, ?_, ?_, ?_⟩
  · intro it rest h
    obtain ⟨flag, res⟩ := it
    simp only at h
    subst h
    simp [forwardRun]
  · intro bs rest _
    simp [forwardRun]
  · intro rest
    simp [forwardRun]
  · intro rest
    simp [forwardRun]
  · intro rest
    simp [forwardRun]
  · intro ins
    constructor
    · intro h
      rw [closesOf_forwardRun, h]
      rfl
    · intro h
      rw [closesOf_forwardRun, h]
      rfl

/-- Witness for C1: a first-iteration shutdown observation closes the
source and terminates. -/
theorem claim1_forwarding_iteration_witness :
    (IterInput.mk true ReadResult.empty).flag = true
    ∧ forwardRun 3 4 [IterInput.mk true ReadResult.empty] = ([Event.close 3], true) :=
  ⟨rfl, (claim1_forwarding_iteration 3 4).1 (IterInput.mk true ReadResult.empty) [] rfl⟩

/-- C10: if the source master delivers a payload as an ordered sequence
of nonempty reads of at most the buffer size (1024 bytes) while the
shutdown flag stays clear, the forwarding task writes exactly the
payload bytes, unmodified and in order, to the other master, and it does
so within one iteration per chunk, hence within a number of iterations
bounded by the payload length; payloads beyond 1024 bytes simply arrive
as several ordered chunks. -/
theorem claim10_bridge_forward_fidelity (src dest : Nat) (payload : List Nat)
    (chunks : List (List Nat))
    (hjoin : chunks.flatten = payload)
    (hchunk : ∀ c ∈ chunks, c ≠ [] ∧ c.length ≤ 1024) :
    writtenTo dest (forwardRun src dest
        (chunks.map (fun c => IterInput.mk false (ReadResult.data c)))).1 = payload
    ∧ chunks.length ≤ payload.length := by
  induction chunks generalizing payload with
  | nil =>
    subst hjoin
    simp [forwardRun, writtenTo, writesTo]
  | cons c cs ih =>
    have hc := hchunk c (by simp)
    obtain ⟨hcs1, hcs2⟩ := ih cs.flatten rfl (fun x hx => hchunk x (by simp [hx]))
    subst hjoin
    constructor
    · simp only [List.map_cons]
      rw [show forwardRun src dest (IterInput.mk false (ReadResult.data c)
            :: cs.map (fun c => IterInput.mk false (ReadResult.data c)))
          = ((Event.write dest c)
              :: (forwardRun src dest (cs.map (fun c => IterInput.mk false (ReadResult.data c)))).1,
             (forwardRun src dest (cs.map (fun c => IterInput.mk false (ReadResult.data c)))).2)
          from by simp [forwardRun]]
      rw [writtenTo_write_cons, hcs1]
      simp
    · have hone : 1 ≤ c.length := by
        cases c
        · exact absurd rfl hc.1
        · simp
      simp only [List.length_cons, List.flatten_cons, List.length_append]
      omega

/-- Witness for C10 on a three-byte payload split into two chunks. -/
theorem claim10_bridge_forward_fidelity_witness :
    ([[1, 2], [3]] : List (List Nat)).flatten = [1, 2, 3]
    ∧ (∀ c ∈ ([[1, 2], [3]] : List (List Nat)), c ≠ [] ∧ c.length ≤ 1024)
    ∧ (writtenTo 4 (forwardRun 3 4 (([[1, 2], [3]] : List (List Nat)).map
          (fun c => IterInput.mk false (ReadResult.data c)))).1 = [1, 2, 3]
        ∧ ([[1, 2], [3]] : List (List Nat)).length ≤ ([1, 2, 3] : List Nat).length) :=
  ⟨by decide, by decide,
    claim10_bridge_forward_fidelity 3 4 [1, 2, 3] [[1, 2], [3]] (by decide) (by decide)⟩

end NmeaSim

namespace NmeaSim

/-! ## The simulation loop and the shutdown flag (claim C2) -/

lemma simLoopWrites_eq_takeWhile (obs : List Bool) :
    simLoopWrites obs = (obs.takeWhile (fun b => !b)).length := by
  induction obs with
  | nil => rfl
  | cons b rest ih =>
    cases b
    · simp [simLoopWrites, List.takeWhile_cons, ih]
    · simp [simLoopWrites, List.takeWhile_cons]

lemma simLoopExits_eq_any (obs : List Bool) : simLoopExits obs = obs.any (fun b => b) := by
  induction obs with
  | nil => rfl
  | cons b rest ih => simp [simLoopExits, ih]

lemma simLoopWrites_le (obs : List Bool) (s : Nat)
    (hs : ∀ (j : Nat) (h : j < obs.length), s ≤ j → obs[j] = true) :
    simLoopWrites obs ≤ s := by
  induction obs generalizing s with
  | nil => simp [simLoopWrites]
  | cons b rest ih =>
    cases b
    · rcases Nat.eq_zero_or_pos s with hse | hsp
      · subst hse
        have := hs 0 (by simp) (le_refl 0)
        simp at this
      · have hrest : simLoopWrites rest ≤ s - 1 := by
          apply ih
          intro j hj hsj
          have := hs (j + 1) (by simpa using Nat.succ_lt_succ hj) (by omega)
          simpa using this
        simp only [simLoopWrites, Bool.false_eq_true, if_false]
        omega
    · simp [simLoopWrites]

/-- C2: given the sequence of values the loop-head shutdown check of
write_nmea_messages observes, if every check from index s onward sees
the flag as true (the flag was set before check s and an atomic flag
never reverts), then the loop completes at most s write-and-flush
iterations in total — so at most one more than the s minus one
iterations already under way when the flag was set — the number of
completed iterations equals the count of leading false observations (no
write ever starts after a true observation), and if the schedule
reaches check s the loop has exited. -/
theorem claim2_sim_loop_shutdown (obs : List Bool) (s : Nat)
    (hs : ∀ (j : Nat) (h : j < obs.length), s ≤ j → obs[j] = true) :
    simLoopWrites obs ≤ s
    ∧ simLoopWrites obs = (obs.takeWhile (fun b => !b)).length
    ∧ (s < obs.length → simLoopExits obs = true) := by
  refine ⟨simLoopWrites_le obs s hs, simLoopWrites_eq_takeWhile obs, ?_⟩
  intro hlen
  rw [simLoopExits_eq_any, List.any_eq_true]
  exact ⟨obs[s], List.getElem_mem hlen, hs s hlen (le_refl s)⟩

/-- Witness for C2: flag set during the first iteration, observed at the
second check. -/
theorem claim2_sim_loop_shutdown_witness :
    (∀ (j : Nat) (h : j < ([false, true] : List Bool).length), 1 ≤ j →
        ([false, true] : List Bool)[j] = true)
    ∧ (simLoopWrites [false, true] ≤ 1
      ∧ simLoopWrites [false, true]
          = (([false, true] : List Bool).takeWhile (fun b => !b)).length
      ∧ (1 < ([false, true] : List Bool).length → simLoopExits [false, true] = true)) :=
  ⟨by decide, claim2_sim_loop_shutdown [false, true] 1 (by decide)⟩

end NmeaSim

namespace NmeaSim

/-! ## Close ownership of the master descriptors (claim C7) -/

lemma cleanupCloses_comp (st : PtyState) :
    ∀ p ∈ cleanupCloses st, p.2 = Component.cleanupTask := by
  intro p hp
  unfold cleanupCloses at hp
  rcases hsl1 : st.slave1 with _ | fd1 <;> rw [hsl1] at hp <;>
    rcases hsl2 : st.slave2 with _ | fd2 <;> rw [hsl2] at hp <;> simp at hp
  · rw [hp]
  · rw [hp]
  · rcases hp with hp | hp <;> rw [hp]

lemma cleanupCloses_fd (st : PtyState) :
    ∀ p ∈ cleanupCloses st, st.slave1 = some p.1 ∨ st.slave2 = some p.1 := by
  intro p hp
  unfold cleanupCloses at hp
  rcases hsl1 : st.slave1 with _ | fd1 <;> rw [hsl1] at hp <;>
    rcases hsl2 : st.slave2 with _ | fd2 <;> rw [hsl2] at hp <;> simp at hp
  · exact Or.inr (by simp [hp, hsl2])
  · exact Or.inl (by simp [hp, hsl1])
  · rcases hp with hp | hp
    · exact Or.inl (by simp [hp, hsl1])
    · exact Or.inr (by simp [hp, hsl2])

lemma cleanupCloses_avoid (st : PtyState) (m : Nat)
    (h1 : ∀ fd, st.slave1 = some fd → fd ≠ m)
    (h2 : ∀ fd, st.slave2 = some fd → fd ≠ m) :
    ∀ p ∈ cleanupCloses st, p.1 ≠ m := by
  intro p hp
  rcases cleanupCloses_fd st p hp with h | h
  · exact h1 p.1 h
  · exact h2 p.1 h

lemma count_cleanupCloses_zero (st : PtyState) (m : Nat) (c : Component)
    (hc : c ≠ Component.cleanupTask) :
    (cleanupCloses st).count (m, c) = 0 := by
  rw [List.count_eq_zero]
  intro hmem
  exact hc (cleanupCloses_comp st (m, c) hmem)

/-- C7 counterexample: in a run in which both forwarding tasks observe
the shutdown flag at once (master descriptors 10 and 11, retained
replica descriptors 12 and 13), the close trace refutes the claim that
master descriptors are closed only by cleanup and that cleanup closes
each of them exactly once: task one closes descriptor 10 itself, and
cleanup closes neither master. -/
theorem claim7_counterexample :
    ¬ ((∀ p ∈ systemCloses 10 11 stHeld
            [IterInput.mk true ReadResult.empty] [IterInput.mk true ReadResult.empty],
          p.1 = 10 ∨ p.1 = 11 → p.2 = Component.cleanupTask)
      ∧ (systemCloses 10 11 stHeld
            [IterInput.mk true ReadResult.empty]
            [IterInput.mk true ReadResult.empty]).count (10, Component.cleanupTask) = 1
      ∧ (systemCloses 10 11 stHeld
            [IterInput.mk true ReadResult.empty]
            [IterInput.mk true ReadResult.empty]).count (11, Component.cleanupTask) = 1) := by
  decide

/-- C7 amended: each owned master descriptor is closed exactly once, by
its own forwarding task when that task terminates — not by cleanup,
which closes only the retained replica descriptors. Formally, in the
tagged close trace of a shutdown, every close of a master carries the
tag of the task that reads from it, the count of that tagged close is
one exactly when the task terminates, and no cleanup close names a
master. -/
theorem claim7_master_closed_by_own_task (m1 m2 : Nat) (st : PtyState)
    (ins1 ins2 : List IterInput)
    (h12 : m1 ≠ m2)
    (hs1 : ∀ fd, st.slave1 = some fd → fd ≠ m1 ∧ fd ≠ m2)
    (hs2 : ∀ fd, st.slave2 = some fd → fd ≠ m1 ∧ fd ≠ m2) :
    (∀ p ∈ systemCloses m1 m2 st ins1 ins2, p.1 = m1 → p.2 = Component.task1)
    ∧ (∀ p ∈ systemCloses m1 m2 st ins1 ins2, p.1 = m2 → p.2 = Component.task2)
    ∧ (systemCloses m1 m2 st ins1 ins2).count (m1, Component.task1)
        = (if (forwardRun m1 m2 ins1).2 then 1 else 0)
    ∧ (systemCloses m1 m2 st ins1 ins2).count (m2, Component.task2)
        = (if (forwardRun m2 m1 ins2).2 then 1 else 0)
    ∧ (∀ p ∈ cleanupCloses st, p.1 ≠ m1 ∧ p.1 ≠ m2) := by
  have havoid1 := cleanupCloses_avoid st m1 (fun fd h => (hs1 fd h).1) (fun fd h => (hs2 fd h).1)
  have havoid2 := cleanupCloses_avoid st m2 (fun fd h => (hs1 fd h).2) (fun fd h => (hs2 fd h).2)
  refine ⟨?_, ?_, ?_, ?_, fun p hp => ⟨havoid1 p hp, havoid2 p hp⟩⟩
  · intro p hp hm
    unfold systemCloses at hp
    rcases List.mem_append.mp hp with h | h
    · rcases List.mem_append.mp h with h | h
      · obtain ⟨fd, _, rfl⟩ := List.mem_map.mp h
        rfl
      · obtain ⟨fd, hfd, rfl⟩ := List.mem_map.mp h
        rw [closesOf_forwardRun] at hfd
        have hfdm : fd = m2 := by
          rcases ht : (forwardRun m2 m1 ins2).2 <;> rw [ht] at hfd <;> simp at hfd <;>
            exact hfd
        have hm2 : fd = m1 := hm
        exact absurd (hm2.symm.trans hfdm) h12
    · exact absurd hm (havoid1 p h)
  · intro p hp hm
    unfold systemCloses at hp
    rcases List.mem_append.mp hp with h | h
    · rcases List.mem_append.mp h with h | h
      · obtain ⟨fd, hfd, rfl⟩ := List.mem_map.mp h
        rw [closesOf_forwardRun] at hfd
        have hfdm : fd = m1 := by
          rcases ht : (forwardRun m1 m2 ins1).2 <;> rw [ht] at hfd <;> simp at hfd <;>
            exact hfd
        have hm2 : fd = m2 := hm
        exact absurd (hfdm.symm.trans hm2) h12
      · obtain ⟨fd, _, rfl⟩ := List.mem_map.mp h
        rfl
    · exact absurd hm (havoid2 p h)
  · unfold systemCloses
    rw [closesOf_forwardRun, closesOf_forwardRun]
    rw [List.count_append, List.count_append]
    rw [count_cleanupCloses_zero st m1 Component.task1 (by simp)]
    rcases ht1 : (forwardRun m1 m2 ins1).2 <;> rcases ht2 : (forwardRun m2 m1 ins2).2 <;>
      simp [List.count_cons, List.count_nil, h12, Ne.symm h12]
  · unfold systemCloses
    rw [closesOf_forwardRun, closesOf_forwardRun]
    rw [List.count_append, List.count_append]
    rw [count_cleanupCloses_zero st m2 Component.task2 (by simp)]
    rcases ht1 : (forwardRun m1 m2 ins1).2 <;> rcases ht2 : (forwardRun m2 m1 ins2).2 <;>
      simp [List.count_cons, List.count_nil, h12, Ne.symm h12]

/-- Witness for the amended C7 at concrete descriptors and immediate
shutdown schedules. -/
theorem claim7_master_closed_by_own_task_witness :
    ((10 : Nat) ≠ 11)
    ∧ (∀ fd, stHeld.slave1 = some fd → fd ≠ 10 ∧ fd ≠ 11)
    ∧ (∀ fd, stHeld.slave2 = some fd → fd ≠ 10 ∧ fd ≠ 11)
    ∧ ((∀ p ∈ systemCloses 10 11 stHeld
            [IterInput.mk true ReadResult.empty] [IterInput.mk true ReadResult.empty],
          p.1 = 10 → p.2 = Component.task1)
      ∧ (∀ p ∈ systemCloses 10 11 stHeld
            [IterInput.mk true ReadResult.empty] [IterInput.mk true ReadResult.empty],
          p.1 = 11 → p.2 = Component.task2)
      ∧ (systemCloses 10 11 stHeld
            [IterInput.mk true ReadResult.empty]
            [IterInput.mk true ReadResult.empty]).count (10, Component.task1)
          = (if (forwardRun 10 11 [IterInput.mk true ReadResult.empty]).2 then 1 else 0)
      ∧ (systemCloses 10 11 stHeld
            [IterInput.mk true ReadResult.empty]
            [IterInput.mk true ReadResult.empty]).count (11, Component.task2)
          = (if (forwardRun 11 10 [IterInput.mk true ReadResult.empty]).2 then 1 else 0)
      ∧ (∀ p ∈ cleanupCloses stHeld, p.1 ≠ 10 ∧ p.1 ≠ 11)) :=
  ⟨by decide, by decide, by decide,
    claim7_master_closed_by_own_task 10 11 stHeld
      [IterInput.mk true ReadResult.empty] [IterInput.mk true ReadResult.empty]
      (by decide) (by decide) (by decide)⟩

/-! ## Argument handling (claim C8) -/

/-- C8 counterexample: invoking the program with the single argument -h
does not exit with status zero; there is no help handling in main. -/
theorem claim8_counterexample :
    ¬ (mainArgs ["nmea_simulator", "-h"] = ArgOutcome.usageExit 0) := by
  decide

/-- C8 amended: main treats any argument vector whose length is not
exactly three — in particular a lone -h or --help flag — as a usage
error: it prints the usage message to standard error and exits with
status one. -/
theorem claim8_usage_code (args : List String) (h : args.length ≠ 3) :
    mainArgs args = ArgOutcome.usageExit 1 := by
  rcases args with _ | ⟨a, _ | ⟨b, _ | ⟨c, rest⟩⟩⟩
  · rfl
  · rfl
  · rfl
  · cases rest with
    | nil => exact absurd rfl h
    | cons d rest2 => rfl

/-- Witness for the amended C8 at the lone -h invocation. -/
theorem claim8_usage_code_witness :
    (["nmea_simulator", "-h"] : List String).length ≠ 3
    ∧ mainArgs ["nmea_simulator", "-h"] = ArgOutcome.usageExit 1 :=
  ⟨by decide, claim8_usage_code ["nmea_simulator", "-h"] (by decide)⟩

/-! ## Cleanup and dangling published links (claim C3) -/

/-- C3: evaluation of the embedded cleanup at the state the program
actually reaches on shutdown. After the joined forwarding threads have
closed the pty masters, the published paths are symbolic links whose
targets are gone; Path::exists follows the dangling link and reports
false, so cleanup skips remove_file. Both cleanup calls return success,
yet both published paths are still present afterwards, refuting the
requirement that the filesystem be left free of them. -/
theorem claim3_cleanup_leaves_dangling_links :
    (cleanupRun stHeld fsDangling gpsInP gpsOutP).2.2 = true
    ∧ (cleanupRun (cleanupRun stHeld fsDangling gpsInP gpsOutP).1
        (cleanupRun stHeld fsDangling gpsInP gpsOutP).2.1 gpsInP gpsOutP).2.2 = true
    ∧ lookupFs (cleanupRun (cleanupRun stHeld fsDangling gpsInP gpsOutP).1
        (cleanupRun stHeld fsDangling gpsInP gpsOutP).2.1 gpsInP gpsOutP).2.1 gpsInP
        = some (FsEntry.link ("/dev/pts/3"))
    ∧ lookupFs (cleanupRun (cleanupRun stHeld fsDangling gpsInP gpsOutP).1
        (cleanupRun stHeld fsDangling gpsInP gpsOutP).2.1 gpsInP gpsOutP).2.1 gpsOutP
        = some (FsEntry.link ("/dev/pts/4")) := by
  decide

end NmeaSim
